import Mathlib

/-!
# EduNLP-X authentication core — shallow embedding

A shallow embedding of the authentication and credential-lifecycle core of
the EduNLP-X backend (`backend/app/core/security.py`,
`backend/app/services/auth_service.py`, `backend/app/schemas/auth.py`,
`backend/app/api/endpoints/auth.py`, `backend/app/api/endpoints/users.py`),
together with theorems settling the specification claims about it.

Modelling conventions:
* Python strings are lists of Unicode code points (`Str := List Nat`);
  character classification (`isupper`, `islower`, `isdigit`, `lower`) is
  modelled on the ASCII range, which is the range exercised by the code.
* Wall-clock time is a `Nat` (Unix seconds, UTC); each operation that reads
  the clock takes `now` as an explicit argument.
* The database session is an explicit `DB` value (lists of user and token
  rows); every stateful operation maps a `DB` to a result paired with the
  successor `DB`.  `scalar_one_or_none` row lookups are first-match
  (`List.find?`) and the mutation of a fetched ORM row is an update of the
  corresponding list entry.
* External libraries (passlib's bcrypt context, python-jose's JWT codec)
  are modelled from their documented behaviour; see the doc comments on
  `cryptContext_verify` and `jwtDecode`.
-/

/-- Python strings, modelled as lists of Unicode code points. -/
abbrev Str := List Nat

/-- Convert a Lean string literal into the code-point model (used only to
name the concrete message/type strings appearing in the source). -/
def ofString (s : String) : Str := s.data.map Char.toNat

/-- Model of Python `str.lower` on a single code point (ASCII range). -/
def pyLowerChar (c : Nat) : Nat := if 65 ≤ c ∧ c ≤ 90 then c + 32 else c

/-- Model of Python `str.lower`. -/
def pyLower (s : Str) : Str := s.map pyLowerChar

/-- Model of Python `str.isupper` on a single code point (ASCII range). -/
def pyIsUpper (c : Nat) : Bool := decide (65 ≤ c ∧ c ≤ 90)

/-- Model of Python `str.islower` on a single code point (ASCII range). -/
def pyIsLower (c : Nat) : Bool := decide (97 ≤ c ∧ c ≤ 122)

/-- Model of Python `str.isdigit` on a single code point (ASCII range). -/
def pyIsDigit (c : Nat) : Bool := decide (48 ≤ c ∧ c ≤ 57)

/-! ## Credential hasher (passlib `CryptContext(schemes=["bcrypt"])`)

`security.py` builds `pwd_context = CryptContext(schemes=["bcrypt"])` and
delegates `get_password_hash` / `verify_password` to it.  The library is
modelled from its documented behaviour:

* `CryptContext.hash` produces a digest in bcrypt format (here: a fixed
  four-character marker `$2b$` followed by a faithful record of the secret,
  standing in for the salted one-way transform — only equality behaviour of
  digests matters to the claims);
* `CryptContext.verify(secret, hash)` returns the boolean comparison when
  `hash` is in the format of a configured scheme, and raises
  `passlib.exc.UnknownHashError` when the hash string cannot be identified
  as any configured scheme (e.g. the empty string, or any string not in
  bcrypt format).
-/

/-- Exception raised by passlib when a hash string cannot be identified. -/
inductive PasslibError where
  | unknownHashError
deriving DecidableEq

/-- The bcrypt format marker (the code points of `$2b$`). -/
def bcryptMagic : Str := [36, 50, 98, 36]

/-- A digest is recognisable as bcrypt iff it starts with the marker. -/
def isBcryptDigest (digest : Str) : Bool := decide (digest.take 4 = bcryptMagic)

/-- Model of `passlib.context.CryptContext.hash` for the bcrypt scheme. -/
def cryptContext_hash (secret : Str) : Str := bcryptMagic ++ secret

/-- Model of `passlib.context.CryptContext.verify`: boolean comparison on a
well-formed digest, `UnknownHashError` on an unidentifiable one. -/
def cryptContext_verify (secret digest : Str) : Except PasslibError Bool :=
  if isBcryptDigest digest then .ok (decide (digest = cryptContext_hash secret))
  else .error .unknownHashError

/-- Source `security.get_password_hash`: `return pwd_context.hash(password)`. -/
def get_password_hash (password : Str) : Str := cryptContext_hash password

/-- Source `security.verify_password`: `return pwd_context.verify(plain_password,
hashed_password)` — no exception handling in the source, so a library
exception propagates to the caller. -/
def verify_password (plain_password hashed_password : Str) : Except PasslibError Bool :=
  cryptContext_verify plain_password hashed_password

/-! ## Token codec (python-jose JWT, `security.py`)

JWT strings are modelled as either a payload signed with a key, or a
malformed string.  `jose.jwt.encode` yields a signed value;
`jose.jwt.decode(token, key, algorithms)` (per the library's documented
behaviour, with its default options) raises a `JWTError` — uniformly caught
by `verify_token` — when the token is malformed or the signature does not
verify under `key`, and raises `ExpiredSignatureError` (a `JWTError`) when
the embedded `exp` claim is strictly less than the current time (leeway 0).
`datetime.fromtimestamp` is modelled as the identity on Unix seconds
(server clock in UTC).
-/

/-- JWT claim set, with the fields this code base reads and writes. -/
structure JwtPayload where
  sub : Option Str
  user_id : Option Str
  type : Option Str
  exp : Option Nat
  iat : Option Nat
deriving DecidableEq

/-- A JWT string: a payload signed with a key, or garbage. -/
inductive TokenStr where
  | signed (payload : JwtPayload) (key : Nat)
  | malformed (s : Str)
deriving DecidableEq

/-- The server-held signing key (`settings.SECRET_KEY`). -/
def SECRET_KEY : Nat := 0

/-- Setting `settings.ACCESS_TOKEN_EXPIRE_MINUTES`. -/
def ACCESS_TOKEN_EXPIRE_MINUTES : Nat := 30

/-- Setting `settings.REFRESH_TOKEN_EXPIRE_MINUTES` (7 days). -/
def REFRESH_TOKEN_EXPIRE_MINUTES : Nat := 60 * 24 * 7

/-- The code points of the string `access_token`. -/
def accessTokenType : Str := ofString "access_token"

/-- The code points of the string `refresh_token`. -/
def refreshTokenType : Str := ofString "refresh_token"

/-- Model of `jose.jwt.encode(claims, key, algorithm)`. -/
def jwtEncode (claims : JwtPayload) (key : Nat) : TokenStr :=
  .signed claims key

/-- Model of `jose.jwt.decode(token, key, algorithms)` with default options:
errors on malformed input, on a signature mismatch, and on an `exp` claim
strictly in the past (`exp < now`, leeway 0). -/
def jwtDecode (t : TokenStr) (key : Nat) (now : Nat) : Except Unit JwtPayload :=
  match t with
  | .malformed _ => .error ()
  | .signed p k =>
    if k ≠ key then .error ()
    else
      match p.exp with
      | some e => if e < now then .error () else .ok p
      | none => .ok p

/-- Source `security.create_access_token(data, expires_delta)`: copies `data`,
overwrites `exp` (from the delta if it is truthy, else the 30-minute
default), `type = "access_token"` and `iat = now`, and signs with the
server key.  The delta is in seconds; Python's `if expires_delta:` treats a
zero delta as falsy. -/
def create_access_token (data : JwtPayload) (expires_delta : Option Nat) (now : Nat) : TokenStr :=
  let expire :=
    match expires_delta with
    | some d => if d ≠ 0 then now + d else now + ACCESS_TOKEN_EXPIRE_MINUTES * 60
    | none => now + ACCESS_TOKEN_EXPIRE_MINUTES * 60
  jwtEncode { data with exp := some expire, type := some accessTokenType, iat := some now }
    SECRET_KEY

/-- Source `security.create_refresh_token(data, expires_delta)`: same as
`create_access_token` with `type = "refresh_token"` and the 7-day default. -/
def create_refresh_token (data : JwtPayload) (expires_delta : Option Nat) (now : Nat) : TokenStr :=
  let expire :=
    match expires_delta with
    | some d => if d ≠ 0 then now + d else now + REFRESH_TOKEN_EXPIRE_MINUTES * 60
    | none => now + REFRESH_TOKEN_EXPIRE_MINUTES * 60
  jwtEncode { data with exp := some expire, type := some refreshTokenType, iat := some now }
    SECRET_KEY

/-- Source `security.verify_token(token, token_type)`: decode inside a
`try/except JWTError` returning `None` on any library error, then reject a
`type` claim different from `token_type`, then apply the source's own
expiry re-check `if exp_timestamp and fromtimestamp(exp_timestamp) <
utcnow(): return None` (a zero timestamp is falsy and skips the check). -/
def verify_token (token : TokenStr) (token_type : Str) (now : Nat) : Option JwtPayload :=
  match jwtDecode token SECRET_KEY now with
  | .error _ => none
  | .ok payload =>
    if payload.type ≠ some token_type then none
    else
      match payload.exp with
      | some e => if e ≠ 0 ∧ e < now then none else some payload
      | none => some payload

/-! ## Data model (`app/models` — users and single-use tokens)

The ORM models module of the repository (`app/models`) is not among the
provided source files; only its importers are.  The row shapes and the
`UserToken` helpers are therefore modelled from the spec (§3, §4.3), and
every definition doing so says as much in its doc comment.
-/

/-- The kind of a single-use token (spec §3). -/
inductive TokenType where
  | EMAIL_VERIFICATION
  | PASSWORD_RESET
deriving DecidableEq

/-- Modelled from the spec: the `users` row, restricted to the fields the
authentication core reads and writes (`app/models` is not under the
provided sources). -/
structure User where
  id : Str
  email : Str
  hashed_password : Str
  first_name : Str
  last_name : Str
  is_verified : Bool
  is_active : Bool
  last_login : Option Nat
deriving DecidableEq

/-- Modelled from the spec: the `user_tokens` row
`{user_id, token_value, kind, created_at, expires_at, used_at}` (spec §3;
`app/models` is not under the provided sources). -/
structure UserToken where
  user_id : Str
  token : Str
  token_type : TokenType
  created_at : Nat
  expires_at : Nat
  used_at : Option Nat
deriving DecidableEq

/-- Modelled from the spec: `UserToken.is_valid` — a token is valid iff
`used_at is null AND now < expires_at` (spec §3). -/
def UserToken.is_valid (t : UserToken) (now : Nat) : Bool :=
  t.used_at.isNone && decide (now < t.expires_at)

/-- Modelled from the spec: `UserToken.mark_as_used` sets `used_at = now`
(spec §3: consuming sets `used_at = now`). -/
def UserToken.mark_as_used (t : UserToken) (now : Nat) : UserToken :=
  { t with used_at := some now }

/-- Modelled from the spec: `UserToken.create_verification_token` — an
EMAIL_VERIFICATION token expiring 24 hours after creation (spec §4.3). -/
def UserToken.create_verification_token (uid : Str) (tok : Str) (now : Nat) : UserToken :=
  { user_id := uid, token := tok, token_type := .EMAIL_VERIFICATION,
    created_at := now, expires_at := now + 24 * 3600, used_at := none }

/-- Modelled from the spec: `UserToken.create_reset_token` — a
PASSWORD_RESET token expiring 1 hour after creation (spec §4.3). -/
def UserToken.create_reset_token (uid : Str) (tok : Str) (now : Nat) : UserToken :=
  { user_id := uid, token := tok, token_type := .PASSWORD_RESET,
    created_at := now, expires_at := now + 3600, used_at := none }

/-- The database session state: the `users` and `user_tokens` tables. -/
structure DB where
  users : List User
  tokens : List UserToken
deriving DecidableEq

/-- Replace the first element satisfying `p` by its image under `f` — the
model of mutating the single ORM row returned by a `scalar_one_or_none`
query. -/
def updateFirst (p : α → Bool) (f : α → α) : List α → List α
  | [] => []
  | x :: xs => if p x then f x :: xs else x :: updateFirst p f xs

/-! ## Auth orchestrator (`app/services/auth_service.py`) -/

namespace AuthService

/-- Source `AuthService.get_user_by_email`: select the user whose stored email
equals `email.lower()`. -/
def get_user_by_email (db : DB) (email : Str) : Option User :=
  db.users.find? (fun u => decide (u.email = pyLower email))

/-- Source `AuthService.get_user_by_id`: select the user by primary key. -/
def get_user_by_id (db : DB) (user_id : Str) : Option User :=
  db.users.find? (fun u => decide (u.id = user_id))

/-- The registration payload (`schemas/auth.py` `UserRegister`), restricted
to the fields the core reads. -/
structure UserRegister where
  email : Str
  password : Str
  first_name : Str
  last_name : Str
deriving DecidableEq

/-- Source `AuthService.create_user`: hash the password, store the user with
`email.lower()`, unverified and active.  `new_id` stands for the
database-generated primary key. -/
def create_user (db : DB) (user_data : UserRegister) (new_id : Str) : User × DB :=
  let db_user : User :=
    { id := new_id, email := pyLower user_data.email,
      hashed_password := get_password_hash user_data.password,
      first_name := user_data.first_name, last_name := user_data.last_name,
      is_verified := false, is_active := true, last_login := none }
  (db_user, { db with users := db.users ++ [db_user] })

/-- Source `AuthService.authenticate_user`: `None` when the user is missing, when
the account is inactive, and when the password does not verify; the user on
success.  `verify_password` is called outside any exception handler, so a
passlib error propagates. -/
def authenticate_user (db : DB) (email password : Str) : Except PasslibError (Option User) :=
  match get_user_by_email db email with
  | none => .ok none
  | some user =>
    if user.is_active then
      match verify_password password user.hashed_password with
      | .error e => .error e
      | .ok ok => if ok then .ok (some user) else .ok none
    else .ok none

/-- Source `AuthService.update_last_login`: set the user's `last_login` to now. -/
def update_last_login (db : DB) (user_id : Str) (now : Nat) : DB :=
  { db with
    users := updateFirst (fun u => decide (u.id = user_id))
      (fun u => { u with last_login := some now }) db.users }

/-- Source `AuthService.get_current_user`: verify the bearer token as an access
token, read `user_id` from the payload (Python's `if not user_id:` also
rejects an empty string), and require the user to exist and be active. -/
def get_current_user (db : DB) (token : TokenStr) (now : Nat) : Option User :=
  match verify_token token accessTokenType now with
  | none => none
  | some payload =>
    match payload.user_id with
    | none => none
    | some user_id =>
      if user_id = [] then none
      else
        match get_user_by_id db user_id with
        | none => none
        | some user => if user.is_active then some user else none

/-- Source `AuthService.verify_refresh_token`: same shape as `get_current_user`,
against the refresh token type. -/
def verify_refresh_token (db : DB) (refresh_token : TokenStr) (now : Nat) : Option User :=
  match verify_token refresh_token refreshTokenType now with
  | none => none
  | some payload =>
    match payload.user_id with
    | none => none
    | some user_id =>
      if user_id = [] then none
      else
        match get_user_by_id db user_id with
        | none => none
        | some user => if user.is_active then some user else none

/-- Source `AuthService.change_password` (and the line-for-line identical
`UserService.change_password` in `user_service.py`): verify the current
password, then replace the stored hash.  The whole body sits in a
`try/except Exception` returning `False`, so a passlib error on a malformed
stored hash yields `False` rather than propagating. -/
def change_password (db : DB) (user_id current_password new_password : Str) : Bool × DB :=
  match get_user_by_id db user_id with
  | none => (false, db)
  | some user =>
    match verify_password current_password user.hashed_password with
    | .error _ => (false, db)
    | .ok ok =>
      if ok then
        (true,
          { db with
            users := updateFirst (fun u => decide (u.id = user_id))
              (fun u => { u with hashed_password := get_password_hash new_password }) db.users })
      else (false, db)

/-- Source `AuthService.send_verification_email`: no-op success when already
verified; otherwise persist a fresh EMAIL_VERIFICATION token (`new_token`
stands for `EmailService.generate_verification_token()`) and return the
email-delivery outcome (`email_ok`). -/
def send_verification_email (db : DB) (user_id : Str) (new_token : Str) (now : Nat)
    (email_ok : Bool) : Bool × DB :=
  match get_user_by_id db user_id with
  | none => (false, db)
  | some user =>
    if user.is_verified then (true, db)
    else
      (email_ok,
        { db with tokens := db.tokens ++ [UserToken.create_verification_token user.id new_token now] })

/-- The single-use token lookup shared by `verify_email` and
`reset_password`: select by exact token value and kind. -/
def find_token (db : DB) (token : Str) (kind : TokenType) : Option UserToken :=
  db.tokens.find? (fun t => decide (t.token = token ∧ t.token_type = kind))

/-- Source `AuthService.verify_email`: find the EMAIL_VERIFICATION token by value,
require it valid, set the user verified and consume the token; `False`
(with the session unchanged) on every failure path. -/
def verify_email (db : DB) (token : Str) (now : Nat) : Bool × DB :=
  match find_token db token .EMAIL_VERIFICATION with
  | none => (false, db)
  | some user_token =>
    if user_token.is_valid now then
      match get_user_by_id db user_token.user_id with
      | none => (false, db)
      | some user =>
        (true,
          { users := updateFirst (fun u => decide (u.id = user.id))
              (fun u => { u with is_verified := true }) db.users,
            tokens := updateFirst
              (fun t => decide (t.token = token ∧ t.token_type = TokenType.EMAIL_VERIFICATION))
              (fun t => t.mark_as_used now) db.tokens })
    else (false, db)

/-- Source `AuthService.send_password_reset_email`: report success for a missing
or inactive account; otherwise mark every unused PASSWORD_RESET token of
the user as used, persist a fresh one (`new_token` stands for
`EmailService.generate_reset_token()`), and report success regardless of
the email-delivery outcome (`email_ok`). -/
def send_password_reset_email (db : DB) (email : Str) (new_token : Str) (now : Nat)
    (email_ok : Bool) : Bool × DB :=
  match get_user_by_email db email with
  | none => (true, db)
  | some user =>
    if user.is_active then
      let tokens' := db.tokens.map (fun t =>
        if t.user_id = user.id ∧ t.token_type = TokenType.PASSWORD_RESET ∧ t.used_at = none
        then t.mark_as_used now else t)
      (true,
        { db with tokens := tokens' ++ [UserToken.create_reset_token user.id new_token now] })
    else (true, db)

/-- Source `AuthService.reset_password`: find the PASSWORD_RESET token by value,
require it valid, replace the user's hash with the hash of the new
password and consume the token; `False` (with the session unchanged) on
every failure path. -/
def reset_password (db : DB) (token new_password : Str) (now : Nat) : Bool × DB :=
  match find_token db token .PASSWORD_RESET with
  | none => (false, db)
  | some user_token =>
    if user_token.is_valid now then
      match get_user_by_id db user_token.user_id with
      | none => (false, db)
      | some user =>
        (true,
          { users := updateFirst (fun u => decide (u.id = user.id))
              (fun u => { u with hashed_password := get_password_hash new_password }) db.users,
            tokens := updateFirst
              (fun t => decide (t.token = token ∧ t.token_type = TokenType.PASSWORD_RESET))
              (fun t => t.mark_as_used now) db.tokens })
    else (false, db)

end AuthService

/-! ## Schema validation and routing layer
(`app/schemas/auth.py`, `app/api/endpoints/auth.py`,
`app/api/endpoints/users.py`)

Pydantic runs a schema's validators before the endpoint body; a validator
raising `ValueError` becomes an HTTP 422 response and the endpoint body
never runs.  Endpoints taking bare `str` parameters get no schema
validation.  Only the fields the claims are about are modelled (the
`validate_names` validator of `UserRegister` is orthogonal to every claim
and is omitted).
-/

/-- The password-strength validator shared verbatim by
`UserRegister.validate_password`, `PasswordReset.validate_new_password` and
`PasswordChange.validate_new_password` in `schemas/auth.py`: at least 8
characters, one uppercase, one lowercase, one digit. -/
def validate_password (v : Str) : Bool :=
  !(decide (v.length < 8)) && v.any pyIsUpper && v.any pyIsLower && v.any pyIsDigit

/-- An endpoint outcome: a success value or an `HTTPException` with a
status code and detail message. -/
inductive Api (α : Type) where
  | ok (val : α)
  | err (code : Nat) (detail : Str)
deriving DecidableEq

namespace Endpoints

/-- Endpoint `POST /auth/register`: pydantic validates the `UserRegister` payload
(422 on a weak password), then the endpoint rejects an already-registered
email (400) and otherwise creates the user. -/
def register (db : DB) (user_data : AuthService.UserRegister) (new_id : Str) : Api User × DB :=
  if !validate_password user_data.password then
    (.err 422 (ofString "Password validation failed"), db)
  else if (AuthService.get_user_by_email db user_data.email).isSome then
    (.err 400 (ofString "Email already registered"), db)
  else
    let r := AuthService.create_user db user_data new_id
    (.ok r.1, r.2)

/-- The result of `POST /auth/login`. -/
inductive LoginResult where
  | success (access_token refresh_token : TokenStr) (user : User)
  | httpError (code : Nat) (detail : Str)
deriving DecidableEq

/-- The claims dict `{"sub": user.email, "user_id": str(user.id)}` passed
to both token constructors by the login and refresh endpoints. -/
def tokenData (user : User) : JwtPayload :=
  { sub := some user.email, user_id := some user.id, type := none, exp := none, iat := none }

/-- Endpoint `POST /auth/login`: authenticate; on failure raise 401 with the single
message `Incorrect email or password`; on success issue the access/refresh
pair and update the last-login timestamp.  An unhandled passlib error
propagates out of the endpoint. -/
def login (db : DB) (username password : Str) (now : Nat) :
    Except PasslibError (LoginResult × DB) :=
  match AuthService.authenticate_user db username password with
  | .error e => .error e
  | .ok none => .ok (.httpError 401 (ofString "Incorrect email or password"), db)
  | .ok (some user) =>
    let access_token :=
      create_access_token (tokenData user) (some (ACCESS_TOKEN_EXPIRE_MINUTES * 60)) now
    let refresh_token :=
      create_refresh_token (tokenData user) (some (REFRESH_TOKEN_EXPIRE_MINUTES * 60)) now
    let db' := AuthService.update_last_login db user.id now
    .ok (.success access_token refresh_token user, db')

/-- The fixed acknowledgement of `POST /auth/forgot-password`. -/
def forgotPasswordMessage : Str :=
  ofString "If the email address exists, a password reset link has been sent"

/-- Endpoint `POST /auth/forgot-password`: run the reset flow, ignore its outcome,
and answer with the fixed acknowledgement. -/
def forgot_password (db : DB) (email : Str) (new_token : Str) (now : Nat)
    (email_ok : Bool) : Api Str × DB :=
  (.ok forgotPasswordMessage,
    (AuthService.send_password_reset_email db email new_token now email_ok).2)

/-- Endpoint `POST /auth/reset-password`: bare `str` parameters (no pydantic
schema); the endpoint itself checks only `len(new_password) < 8`, then
maps a service failure to 400 `Invalid or expired reset token`. -/
def reset_password (db : DB) (token new_password : Str) (now : Nat) : Api Unit × DB :=
  if new_password.length < 8 then
    (.err 400 (ofString "Password must be at least 8 characters long"), db)
  else
    let r := AuthService.reset_password db token new_password now
    if r.1 then (.ok (), r.2)
    else (.err 400 (ofString "Invalid or expired reset token"), r.2)

/-- Endpoint `POST /auth/verify-email`: map a service failure to 400. -/
def verify_email (db : DB) (token : Str) (now : Nat) : Api Unit × DB :=
  let r := AuthService.verify_email db token now
  if r.1 then (.ok (), r.2)
  else (.err 400 (ofString "Invalid or expired verification token"), r.2)

/-- Endpoint `POST /users/change-password`: pydantic validates the `PasswordChange`
payload (422 on a weak new password), then a service failure maps to
400. -/
def change_password (db : DB) (current_user_id : Str)
    (current_password new_password : Str) : Api Unit × DB :=
  if !validate_password new_password then
    (.err 422 (ofString "Password validation failed"), db)
  else
    let r := AuthService.change_password db current_user_id current_password new_password
    if r.1 then (.ok (), r.2)
    else (.err 400 (ofString "Invalid current password or password change failed"), r.2)

end Endpoints

/-- The amended contract for `verify_token`, written from the (amended)
spec words rather than the source, for comparison with the source
translation: the payload is returned exactly when the token is signed with
the server key, the `type` claim equals the expected kind, and the expiry
claim — when present — satisfies `now ≤ expires_at`; otherwise `None`,
never an exception. -/
def verify_token_contract (t : TokenStr) (kind : Str) (now : Nat) : Option JwtPayload :=
  match t with
  | .malformed _ => none
  | .signed p k =>
    if k = SECRET_KEY then
      if p.type = some kind then
        match p.exp with
        | some e => if now ≤ e then some p else none
        | none => some p
      else none
    else none

/-! ## Concrete fixtures

Small closed values used by the witness and counterexample theorems. -/

/-- A registered, active, password-holding user. -/
def userA : User :=
  { id := [1], email := [97], hashed_password := get_password_hash (ofString "Password123"),
    first_name := [65], last_name := [66], is_verified := false, is_active := true,
    last_login := none }

/-- A deactivated user. -/
def userInactive : User :=
  { id := [2], email := [98], hashed_password := get_password_hash (ofString "Password123"),
    first_name := [65], last_name := [66], is_verified := true, is_active := false,
    last_login := none }

/-- A live PASSWORD_RESET token for `userA`. -/
def resetTok : UserToken :=
  { user_id := [1], token := [7], token_type := .PASSWORD_RESET, created_at := 0,
    expires_at := 3600, used_at := none }

/-- An expired, never-used PASSWORD_RESET token for `userA`. -/
def expiredResetTok : UserToken :=
  { user_id := [1], token := [8], token_type := .PASSWORD_RESET, created_at := 0,
    expires_at := 10, used_at := none }

/-- A live EMAIL_VERIFICATION token for `userA`. -/
def verifTok : UserToken :=
  { user_id := [1], token := [5], token_type := .EMAIL_VERIFICATION, created_at := 0,
    expires_at := 86400, used_at := none }

/-- The fixture database. -/
def dbMain : DB :=
  { users := [userA, userInactive], tokens := [resetTok, expiredResetTok, verifTok] }

/-- The empty database. -/
def dbEmpty : DB := { users := [], tokens := [] }

/-- A registration payload whose password fails the strength policy. -/
def regWeak : AuthService.UserRegister :=
  { email := [97], password := ofString "Weak1", first_name := [65, 110, 110],
    last_name := [76, 101, 101] }

/-- The fixture database after a successful redemption of `resetTok`. -/
def dbAfterReset : DB := (AuthService.reset_password dbMain [7] (ofString "Newpass1") 0).2

/-- A JWT claim set whose expiry equals the observation instant used in the
C4 counterexample. -/
def expiryEdgePayload : JwtPayload :=
  { sub := none, user_id := none, type := some accessTokenType, exp := some 100, iat := some 0 }

/-- An access-token claim set referencing the deactivated user, unexpired
at the observation instant used by the C9 witness. -/
def inactiveUserPayload : JwtPayload :=
  { sub := some [98], user_id := some [2], type := some accessTokenType, exp := some 1000,
    iat := some 0 }

/-! ## Helper lemmas -/

theorem pyLowerChar_idem (c : Nat) : pyLowerChar (pyLowerChar c) = pyLowerChar c := by
  unfold pyLowerChar
  by_cases h : 65 ≤ c ∧ c ≤ 90 <;> simp [h] <;> omega

theorem pyLower_idem (s : Str) : pyLower (pyLower s) = pyLower s := by
  unfold pyLower
  rw [List.map_map]
  exact List.map_congr_left (fun c _ => pyLowerChar_idem c)

theorem updateFirst_getElem? (p : α → Bool) (f : α → α) (l : List α) (i : Nat) (y : α)
    (h : (updateFirst p f l)[i]? = some y) :
    ∃ x, l[i]? = some x ∧ (y = x ∨ y = f x) := by
  induction l generalizing i with
  | nil => simp [updateFirst] at h
  | cons a as ih =>
    unfold updateFirst at h
    by_cases hp : p a
    · simp only [hp, if_pos] at h
      cases i with
      | zero => exact ⟨a, by simpa using h.symm ▸ rfl, by simp at h; exact Or.inr h.symm⟩
      | succ j => exact ⟨y, by simpa using h, Or.inl rfl⟩
    · simp only [hp, if_neg, Bool.false_eq_true, not_false_iff] at h
      cases i with
      | zero => simp at h; exact ⟨a, by simp, Or.inl h.symm⟩
      | succ j =>
        simp only [List.getElem?_cons_succ] at h ⊢
        exact ih j h

theorem find?_updateFirst (p : α → Bool) (f : α → α) (l : List α) (x : α)
    (hx : l.find? p = some x) (hf : p (f x) = true) :
    (updateFirst p f l).find? p = some (f x) := by
  induction l with
  | nil => simp at hx
  | cons a as ih =>
    by_cases hp : p a
    · rw [List.find?_cons_of_pos _ hp] at hx
      injection hx with hax
      subst hax
      unfold updateFirst
      rw [if_pos hp]
      exact List.find?_cons_of_pos _ hf
    · rw [List.find?_cons_of_neg _ hp] at hx
      unfold updateFirst
      rw [if_neg hp]
      rw [List.find?_cons_of_neg _ hp]
      exact ih hx

/-! ## Claim theorems -/

/-- C7: for every input email — existing, inactive or unknown account, and
regardless of the email-delivery outcome — the forgot-password service
reports success and the endpoint answers with the one fixed
acknowledgement, so the caller-visible outcome carries no information
about account existence. -/
theorem C7_forgot_password_uniform_success :
    ∀ (db : DB) (email new_token : Str) (now : Nat) (email_ok : Bool),
      (AuthService.send_password_reset_email db email new_token now email_ok).1 = true ∧
      (Endpoints.forgot_password db email new_token now email_ok).1 =
        Api.ok Endpoints.forgotPasswordMessage := by
  intro db email nt now eo
  refine ⟨?_, rfl⟩
  unfold AuthService.send_password_reset_email
  cases AuthService.get_user_by_email db email with
  | none => rfl
  | some user => by_cases h : user.is_active <;> simp [h]

/-- C10: emails are normalised to lowercase on lookup and on user
creation, so lookup — and with it login and forgot-password — is
case-insensitive in the email, and a created user's stored email is the
lowercased input. -/
theorem C10_email_case_insensitive :
    (∀ (db : DB) (email : Str),
        AuthService.get_user_by_email db email =
          AuthService.get_user_by_email db (pyLower email)) ∧
    (∀ (db : DB) (d : AuthService.UserRegister) (new_id : Str),
        ((AuthService.create_user db d new_id).1).email = pyLower d.email) ∧
    (∀ (db : DB) (email password : Str),
        AuthService.authenticate_user db email password =
          AuthService.authenticate_user db (pyLower email) password) ∧
    (∀ (db : DB) (email new_token : Str) (now : Nat) (email_ok : Bool),
        AuthService.send_password_reset_email db email new_token now email_ok =
          AuthService.send_password_reset_email db (pyLower email) new_token now email_ok) := by
  have key : ∀ (db : DB) (email : Str),
      AuthService.get_user_by_email db email =
        AuthService.get_user_by_email db (pyLower email) := by
    intro db email
    unfold AuthService.get_user_by_email
    rw [pyLower_idem]
  refine ⟨key, fun db d nid => rfl, ?_, ?_⟩
  · intro db email pw
    unfold AuthService.authenticate_user
    rw [← key]
  · intro db email nt now eo
    unfold AuthService.send_password_reset_email
    rw [← key]

/-- C3 counterexample: `verify_password` called on the empty (malformed)
digest propagates passlib's `UnknownHashError` instead of returning
`false`, refuting the claim that it returns a boolean and never raises. -/
theorem C3_counterexample :
    verify_password (ofString "password") [] = .error .unknownHashError := rfl

/-- C3 amended: `verify_password` returns the library's boolean comparison
on a digest recognisable as bcrypt, but on a malformed digest it
propagates passlib's `UnknownHashError` — it does not return `false`. -/
theorem C3_amended_verify_password :
    ∀ (plain digest : Str),
      (isBcryptDigest digest = true →
        verify_password plain digest = .ok (decide (digest = cryptContext_hash plain))) ∧
      (isBcryptDigest digest = false →
        verify_password plain digest = .error .unknownHashError) := by
  intro p d
  constructor <;> intro h <;>
    simp [verify_password, cryptContext_verify, h]

/-- Closed instance of the C3 amended theorem at a concrete malformed
digest. -/
theorem C3_amended_verify_password_witness :
    verify_password (ofString "pw") [49] = .error .unknownHashError :=
  (C3_amended_verify_password (ofString "pw") [49]).2 rfl

/-- C5 counterexample: the password `abcdefgh` (8 chars, no uppercase, no
digit) violates the strength policy, yet the reset-password endpoint
accepts it with a valid token and stores its hash as the user's
credential. -/
theorem C5_counterexample :
    validate_password (ofString "abcdefgh") = false ∧
    (Endpoints.reset_password dbMain [7] (ofString "abcdefgh") 0).1 = Api.ok () ∧
    ((Endpoints.reset_password dbMain [7] (ofString "abcdefgh") 0).2.users)[0]? =
      some { userA with hashed_password := get_password_hash (ofString "abcdefgh") } := by
  refine ⟨rfl, rfl, rfl⟩

/-- C5 amended: the register and change-password flows enforce the full
strength policy (length ≥ 8, uppercase, lowercase, digit) through schema
validation before any hashing, rejecting a violating password with the
stored state unchanged; the reset-password flow enforces only the
minimum-length check before hashing — a too-short password is rejected
with the state unchanged, but a long-enough password lacking a required
character class is accepted (see the counterexample). -/
theorem C5_amended_policy_enforcement :
    (∀ (db : DB) (d : AuthService.UserRegister) (new_id : Str),
        validate_password d.password = false →
        Endpoints.register db d new_id =
          (.err 422 (ofString "Password validation failed"), db)) ∧
    (∀ (db : DB) (user_id current_password new_password : Str),
        validate_password new_password = false →
        Endpoints.change_password db user_id current_password new_password =
          (.err 422 (ofString "Password validation failed"), db)) ∧
    (∀ (db : DB) (token new_password : Str) (now : Nat),
        new_password.length < 8 →
        Endpoints.reset_password db token new_password now =
          (.err 400 (ofString "Password must be at least 8 characters long"), db)) := by
  refine ⟨?_, ?_, ?_⟩
  · intro db d nid h
    unfold Endpoints.register
    simp [h]
  · intro db uid cur new h
    unfold Endpoints.change_password
    simp [h]
  · intro db tok new now h
    unfold Endpoints.reset_password
    rw [if_pos h]

/-- Closed instance of the C5 amended theorem: registration with the
too-weak password `Weak1` is rejected, leaving the database unchanged. -/
theorem C5_amended_policy_enforcement_witness :
    Endpoints.register dbEmpty regWeak [1] =
      (.err 422 (ofString "Password validation failed"), dbEmpty) :=
  C5_amended_policy_enforcement.1 dbEmpty regWeak [1] rfl

/-- C6: a reset-password call whose token is missing, expired or already
used returns failure with the session — in particular every stored
credential hash — unchanged, and the endpoint surfaces it as the 400
`Invalid or expired reset token` response. -/
theorem C6_reset_failure_no_state_change :
    (∀ (db : DB) (token new_password : Str) (now : Nat),
        (∀ ut, AuthService.find_token db token .PASSWORD_RESET = some ut →
          ut.is_valid now = false) →
        AuthService.reset_password db token new_password now = (false, db)) ∧
    (∀ (db : DB) (token new_password : Str) (now : Nat),
        8 ≤ new_password.length →
        (∀ ut, AuthService.find_token db token .PASSWORD_RESET = some ut →
          ut.is_valid now = false) →
        Endpoints.reset_password db token new_password now =
          (.err 400 (ofString "Invalid or expired reset token"), db)) := by
  have key : ∀ (db : DB) (token new_password : Str) (now : Nat),
      (∀ ut, AuthService.find_token db token .PASSWORD_RESET = some ut →
        ut.is_valid now = false) →
      AuthService.reset_password db token new_password now = (false, db) := by
    intro db tok pw now hbad
    unfold AuthService.reset_password
    cases hf : AuthService.find_token db tok .PASSWORD_RESET with
    | none => rfl
    | some ut => simp [hbad ut hf]
  refine ⟨key, ?_⟩
  intro db tok pw now hlen hbad
  unfold Endpoints.reset_password
  rw [if_neg (by omega)]
  rw [key db tok pw now hbad]
  rfl

/-- Closed instance of C6: redeeming the expired fixture token fails and
returns the fixture database unchanged. -/
theorem C6_reset_failure_no_state_change_witness :
    AuthService.reset_password dbMain [8] (ofString "Newpass1") 20 = (false, dbMain) :=
  C6_reset_failure_no_state_change.1 dbMain [8] (ofString "Newpass1") 20
    (fun ut h => by injection h with h2; subst h2; rfl)

/-- C8: every failed login — missing user, inactive account, or password
mismatch — makes `authenticate_user` answer `None`, and the login endpoint
turns every `None` into the single 401 `Incorrect email or password`
failure; in particular an inactive account with a wrong (or right)
password gets the same message, never an account-inactive one. -/
theorem C8_login_failures_collapse :
    (∀ (db : DB) (email password : Str),
        AuthService.get_user_by_email db email = none →
        AuthService.authenticate_user db email password = .ok none) ∧
    (∀ (db : DB) (email password : Str) (u : User),
        AuthService.get_user_by_email db email = some u → u.is_active = false →
        AuthService.authenticate_user db email password = .ok none) ∧
    (∀ (db : DB) (email password : Str) (u : User),
        AuthService.get_user_by_email db email = some u → u.is_active = true →
        verify_password password u.hashed_password = .ok false →
        AuthService.authenticate_user db email password = .ok none) ∧
    (∀ (db : DB) (email password : Str) (now : Nat),
        AuthService.authenticate_user db email password = .ok none →
        Endpoints.login db email password now =
          .ok (.httpError 401 (ofString "Incorrect email or password"), db)) := by
  refine ⟨?_, ?_, ?_, ?_⟩
  · intro db email pw h
    unfold AuthService.authenticate_user
    rw [h]
  · intro db email pw u h ha
    unfold AuthService.authenticate_user
    rw [h]
    simp [ha]
  · intro db email pw u h ha hv
    unfold AuthService.authenticate_user
    rw [h]
    simp [ha, hv]
  · intro db email pw now h
    unfold Endpoints.login
    rw [h]

/-- Closed instance of C8: logging in as the deactivated fixture user with
the correct password yields the generic 401 message. -/
theorem C8_login_failures_collapse_witness :
    Endpoints.login dbMain [98] (ofString "Password123") 0 =
      .ok (.httpError 401 (ofString "Incorrect email or password"), dbMain) :=
  C8_login_failures_collapse.2.2.2 dbMain [98] (ofString "Password123") 0
    (C8_login_failures_collapse.2.1 dbMain [98] (ofString "Password123") userInactive rfl rfl)

/-- The function `verify_token` computes exactly its amended contract. -/
theorem verify_token_eq_contract (t : TokenStr) (kind : Str) (now : Nat) :
    verify_token t kind now = verify_token_contract t kind now := by
  cases t with
  | malformed s => rfl
  | signed p k =>
    by_cases hk : k = SECRET_KEY
    · subst hk
      cases he : p.exp with
      | none =>
        have hdec : jwtDecode (.signed p SECRET_KEY) SECRET_KEY now = .ok p := by
          simp [jwtDecode, he]
        by_cases ht : p.type = some kind
        · simp [verify_token, hdec, verify_token_contract, ht, he]
        · simp [verify_token, hdec, verify_token_contract, ht, he]
      | some e =>
        by_cases hlt : e < now
        · have hdec : jwtDecode (.signed p SECRET_KEY) SECRET_KEY now = .error () := by
            simp [jwtDecode, he, hlt]
          by_cases ht : p.type = some kind
          · simp [verify_token, hdec, verify_token_contract, ht, he, Nat.not_le.mpr hlt]
          · simp [verify_token, hdec, verify_token_contract, ht, he]
        · have hdec : jwtDecode (.signed p SECRET_KEY) SECRET_KEY now = .ok p := by
            simp [jwtDecode, he, hlt]
          by_cases ht : p.type = some kind
          · simp [verify_token, hdec, verify_token_contract, ht, he, hlt, Nat.not_lt.mp hlt]
          · simp [verify_token, hdec, verify_token_contract, ht, he]
    · have hdec : jwtDecode (.signed p k) SECRET_KEY now = .error () := by
        simp [jwtDecode, hk]
      simp [verify_token, hdec, verify_token_contract, hk]

/-- C9: `get_current_user` succeeds only when the bearer token verifies as
an access token, its payload carries a non-empty `user_id`, and the
referenced user exists and is active; consequently a deactivated user's
still-valid access token is rejected. -/
theorem C9_get_current_user_requirements :
    (∀ (db : DB) (t : TokenStr) (now : Nat) (u : User),
        AuthService.get_current_user db t now = some u →
        ∃ payload user_id,
          verify_token t accessTokenType now = some payload ∧
          payload.user_id = some user_id ∧ user_id ≠ [] ∧
          AuthService.get_user_by_id db user_id = some u ∧ u.is_active = true) ∧
    (∀ (db : DB) (t : TokenStr) (now : Nat) (payload : JwtPayload) (user_id : Str) (u : User),
        verify_token t accessTokenType now = some payload →
        payload.user_id = some user_id →
        AuthService.get_user_by_id db user_id = some u →
        u.is_active = false →
        AuthService.get_current_user db t now = none) := by
  constructor
  · intro db t now u h
    unfold AuthService.get_current_user at h
    cases hv : verify_token t accessTokenType now with
    | none => simp [hv] at h
    | some payload =>
      simp only [hv] at h
      cases hu : payload.user_id with
      | none => simp [hu] at h
      | some uid =>
        simp only [hu] at h
        by_cases hnil : uid = []
        · rw [if_pos hnil] at h
          exact absurd h (by simp)
        · rw [if_neg hnil] at h
          cases hg : AuthService.get_user_by_id db uid with
          | none => simp [hg] at h
          | some user =>
            simp only [hg] at h
            by_cases ha : user.is_active = true
            · rw [if_pos ha] at h
              injection h with h
              subst h
              exact ⟨payload, uid, rfl, hu, hnil, hg, ha⟩
            · rw [if_neg ha] at h
              exact absurd h (by simp)
  · intro db t now payload uid u hv hu hg ha
    unfold AuthService.get_current_user
    simp only [hv, hu]
    by_cases hnil : uid = []
    · rw [if_pos hnil]
    · rw [if_neg hnil]
      simp only [hg]
      rw [if_neg (by simp [ha])]

/-- Closed instance of C9: the deactivated fixture user's unexpired access
token is rejected by `get_current_user`. -/
theorem C9_get_current_user_requirements_witness :
    AuthService.get_current_user dbMain (TokenStr.signed inactiveUserPayload SECRET_KEY) 0 =
      none :=
  C9_get_current_user_requirements.2 dbMain (TokenStr.signed inactiveUserPayload SECRET_KEY) 0
    inactiveUserPayload [2] userInactive rfl rfl rfl rfl

/-- C4 counterexample: at the instant `now = expires_at` (here 100), a
correctly signed access token still verifies and the payload is returned,
refuting the claim that `verify_token` returns `None` whenever
`now ≥ expires_at`. -/
theorem C4_counterexample :
    expiryEdgePayload.exp = some 100 ∧
    verify_token (TokenStr.signed expiryEdgePayload SECRET_KEY) accessTokenType 100 =
      some expiryEdgePayload :=
  ⟨rfl, rfl⟩

/-- C4 amended: `verify_token` is total (every decode error is caught and
mapped to `None`), and it returns the payload exactly when the token is
signed with the server key, the `type` claim equals the expected kind, and
the expiry — when present — satisfies `now ≤ expires_at`; so it rejects
only from `now > expires_at` on, accepting the boundary instant
`now = expires_at`.  A token issued as an access token always fails
verification against the refresh kind. -/
theorem C4_amended_verify_token :
    (∀ (t : TokenStr) (kind : Str) (now : Nat) (payload : JwtPayload),
        verify_token t kind now = some payload ↔
          (t = TokenStr.signed payload SECRET_KEY ∧ payload.type = some kind ∧
            ∀ e, payload.exp = some e → now ≤ e)) ∧
    (∀ (data : JwtPayload) (expires_delta : Option Nat) (now m : Nat),
        verify_token (create_access_token data expires_delta now) refreshTokenType m = none) := by
  constructor
  · intro t kind now payload
    rw [verify_token_eq_contract]
    cases t with
    | malformed s => simp [verify_token_contract]
    | signed p k =>
      simp only [verify_token_contract]
      by_cases hk : k = SECRET_KEY
      · subst hk
        rw [if_pos rfl]
        by_cases ht : p.type = some kind
        · rw [if_pos ht]
          cases he : p.exp with
          | none =>
            simp only [he]
            constructor
            · intro h
              injection h with h
              subst h
              exact ⟨rfl, ht, fun e h' => by rw [he] at h'; exact Option.noConfusion h'⟩
            · rintro ⟨hsig, -, -⟩
              injection hsig with h1 h2
              rw [h1]
          | some e =>
            simp only [he]
            by_cases hle : now ≤ e
            · rw [if_pos hle]
              constructor
              · intro h
                injection h with h
                subst h
                refine ⟨rfl, ht, fun e' h' => ?_⟩
                rw [he] at h'
                injection h' with h'
                omega
              · rintro ⟨hsig, -, -⟩
                injection hsig with h1 h2
                rw [h1]
            · rw [if_neg hle]
              constructor
              · intro h
                exact absurd h (by simp)
              · rintro ⟨hsig, -, hexp⟩
                injection hsig with h1 h2
                subst h1
                exact absurd (hexp e he) hle
        · rw [if_neg ht]
          constructor
          · intro h
            exact absurd h (by simp)
          · rintro ⟨hsig, htype, -⟩
            injection hsig with h1 h2
            subst h1
            exact absurd htype ht
      · rw [if_neg hk]
        constructor
        · intro h
          exact absurd h (by simp)
        · rintro ⟨hsig, -, -⟩
          injection hsig with h1 h2
          exact absurd h2 hk
  · intro data ed now m
    rw [verify_token_eq_contract]
    unfold create_access_token jwtEncode
    simp only [verify_token_contract]
    rw [if_pos trivial]
    rw [if_neg (by decide)]

/-- Closed instance of the C4 amended theorem: the boundary payload is
accepted strictly before its expiry. -/
theorem C4_amended_verify_token_witness :
    verify_token (TokenStr.signed expiryEdgePayload SECRET_KEY) accessTokenType 50 =
      some expiryEdgePayload :=
  (C4_amended_verify_token.1 (TokenStr.signed expiryEdgePayload SECRET_KEY) accessTokenType 50
      expiryEdgePayload).mpr
    ⟨rfl, rfl, fun e he => by
      have h2 : some 100 = some e := he
      injection h2 with h3
      omega⟩

/-- C1: consuming a single-use token is one-way.  After a successful
redemption (`reset_password` or `verify_email` returning success), a
second redemption of the same token value fails with the session
unchanged; and no modelled operation ever clears a token's `used_at` back
to null — the token-table writes of every flow preserve `used_at`-set,
and the remaining flows do not touch the token table at all. -/
theorem C1_single_use_one_way :
    (∀ (db db' : DB) (tok pw pw2 : Str) (now now2 : Nat),
        AuthService.reset_password db tok pw now = (true, db') →
        AuthService.reset_password db' tok pw2 now2 = (false, db')) ∧
    (∀ (db db' : DB) (tok : Str) (now now2 : Nat),
        AuthService.verify_email db tok now = (true, db') →
        AuthService.verify_email db' tok now2 = (false, db')) ∧
    (∀ (db : DB) (tok pw : Str) (now i : Nat) (t t' : UserToken),
        db.tokens[i]? = some t →
        ((AuthService.reset_password db tok pw now).2.tokens)[i]? = some t' →
        t.used_at.isSome = true → t'.used_at.isSome = true) ∧
    (∀ (db : DB) (tok : Str) (now i : Nat) (t t' : UserToken),
        db.tokens[i]? = some t →
        ((AuthService.verify_email db tok now).2.tokens)[i]? = some t' →
        t.used_at.isSome = true → t'.used_at.isSome = true) ∧
    (∀ (db : DB) (email new_token : Str) (now i : Nat) (email_ok : Bool) (t t' : UserToken),
        db.tokens[i]? = some t →
        ((AuthService.send_password_reset_email db email new_token now email_ok).2.tokens)[i]? =
          some t' →
        t.used_at.isSome = true → t'.used_at.isSome = true) ∧
    (∀ (db : DB) (user_id new_token : Str) (now i : Nat) (email_ok : Bool) (t t' : UserToken),
        db.tokens[i]? = some t →
        ((AuthService.send_verification_email db user_id new_token now email_ok).2.tokens)[i]? =
          some t' →
        t.used_at.isSome = true → t'.used_at.isSome = true) ∧
    (∀ (db : DB) (d : AuthService.UserRegister) (new_id : Str),
        ((AuthService.create_user db d new_id).2).tokens = db.tokens) ∧
    (∀ (db : DB) (user_id current_password new_password : Str),
        ((AuthService.change_password db user_id current_password new_password).2).tokens =
          db.tokens) ∧
    (∀ (db : DB) (user_id : Str) (now : Nat),
        (AuthService.update_last_login db user_id now).tokens = db.tokens) := by
  refine ⟨?_, ?_, ?_, ?_, ?_, ?_, fun db d nid => rfl, ?_, fun db uid now => rfl⟩
  · intro db db' tok pw pw2 now now2 h
    unfold AuthService.reset_password at h
    cases hf : AuthService.find_token db tok TokenType.PASSWORD_RESET with
    | none =>
      rw [hf] at h
      simp at h
    | some ut =>
      rw [hf] at h
      dsimp only at h
      by_cases hv : ut.is_valid now = true
      · rw [if_pos hv] at h
        cases hg : AuthService.get_user_by_id db ut.user_id with
        | none =>
          rw [hg] at h
          simp at h
        | some user =>
          rw [hg] at h
          dsimp only at h
          have hdb' : db' =
              { users := updateFirst (fun v => decide (v.id = user.id))
                  (fun v => { v with hashed_password := get_password_hash pw }) db.users,
                tokens := updateFirst
                  (fun t => decide (t.token = tok ∧ t.token_type = TokenType.PASSWORD_RESET))
                  (fun t => t.mark_as_used now) db.tokens } := by
            have h2 := congrArg Prod.snd h
            exact h2.symm
          have hf' : db.tokens.find?
              (fun t => decide (t.token = tok ∧ t.token_type = TokenType.PASSWORD_RESET)) =
              some ut := hf
          have hfind2 : AuthService.find_token db' tok TokenType.PASSWORD_RESET =
              some (ut.mark_as_used now) := by
            rw [hdb']
            exact find?_updateFirst _ _ _ _ hf'
              (by simpa [UserToken.mark_as_used] using List.find?_some hf')
          unfold AuthService.reset_password
          rw [hfind2]
          dsimp only
          rw [if_neg (by simp [UserToken.mark_as_used, UserToken.is_valid])]
      · rw [if_neg hv] at h
        simp at h
  · intro db db' tok now now2 h
    unfold AuthService.verify_email at h
    cases hf : AuthService.find_token db tok TokenType.EMAIL_VERIFICATION with
    | none =>
      rw [hf] at h
      simp at h
    | some ut =>
      rw [hf] at h
      dsimp only at h
      by_cases hv : ut.is_valid now = true
      · rw [if_pos hv] at h
        cases hg : AuthService.get_user_by_id db ut.user_id with
        | none =>
          rw [hg] at h
          simp at h
        | some user =>
          rw [hg] at h
          dsimp only at h
          have hdb' : db' =
              { users := updateFirst (fun v => decide (v.id = user.id))
                  (fun v => { v with is_verified := true }) db.users,
                tokens := updateFirst
                  (fun t => decide (t.token = tok ∧ t.token_type = TokenType.EMAIL_VERIFICATION))
                  (fun t => t.mark_as_used now) db.tokens } := by
            have h2 := congrArg Prod.snd h
            exact h2.symm
          have hf' : db.tokens.find?
              (fun t => decide (t.token = tok ∧ t.token_type = TokenType.EMAIL_VERIFICATION)) =
              some ut := hf
          have hfind2 : AuthService.find_token db' tok TokenType.EMAIL_VERIFICATION =
              some (ut.mark_as_used now) := by
            rw [hdb']
            exact find?_updateFirst _ _ _ _ hf'
              (by simpa [UserToken.mark_as_used] using List.find?_some hf')
          unfold AuthService.verify_email
          rw [hfind2]
          dsimp only
          rw [if_neg (by simp [UserToken.mark_as_used, UserToken.is_valid])]
      · rw [if_neg hv] at h
        simp at h
  · intro db tok pw now i t t' ht ht' hsome
    unfold AuthService.reset_password at ht'
    cases hf : AuthService.find_token db tok TokenType.PASSWORD_RESET with
    | none =>
      rw [hf] at ht'
      dsimp only at ht'
      rw [ht] at ht'
      injection ht' with e
      exact e ▸ hsome
    | some ut =>
      rw [hf] at ht'
      dsimp only at ht'
      by_cases hv : ut.is_valid now = true
      · rw [if_pos hv] at ht'
        cases hg : AuthService.get_user_by_id db ut.user_id with
        | none =>
          rw [hg] at ht'
          dsimp only at ht'
          rw [ht] at ht'
          injection ht' with e
          exact e ▸ hsome
        | some user =>
          rw [hg] at ht'
          dsimp only at ht'
          obtain ⟨x, hx, hcase⟩ := updateFirst_getElem? _ _ _ _ _ ht'
          rw [ht] at hx
          injection hx with e
          subst e
          rcases hcase with rfl | rfl
          · exact hsome
          · rfl
      · rw [if_neg hv] at ht'
        dsimp only at ht'
        rw [ht] at ht'
        injection ht' with e
        exact e ▸ hsome
  · intro db tok now i t t' ht ht' hsome
    unfold AuthService.verify_email at ht'
    cases hf : AuthService.find_token db tok TokenType.EMAIL_VERIFICATION with
    | none =>
      rw [hf] at ht'
      dsimp only at ht'
      rw [ht] at ht'
      injection ht' with e
      exact e ▸ hsome
    | some ut =>
      rw [hf] at ht'
      dsimp only at ht'
      by_cases hv : ut.is_valid now = true
      · rw [if_pos hv] at ht'
        cases hg : AuthService.get_user_by_id db ut.user_id with
        | none =>
          rw [hg] at ht'
          dsimp only at ht'
          rw [ht] at ht'
          injection ht' with e
          exact e ▸ hsome
        | some user =>
          rw [hg] at ht'
          dsimp only at ht'
          obtain ⟨x, hx, hcase⟩ := updateFirst_getElem? _ _ _ _ _ ht'
          rw [ht] at hx
          injection hx with e
          subst e
          rcases hcase with rfl | rfl
          · exact hsome
          · rfl
      · rw [if_neg hv] at ht'
        dsimp only at ht'
        rw [ht] at ht'
        injection ht' with e
        exact e ▸ hsome
  · intro db email nt now i eo t t' ht ht' hsome
    unfold AuthService.send_password_reset_email at ht'
    cases hm : AuthService.get_user_by_email db email with
    | none =>
      rw [hm] at ht'
      dsimp only at ht'
      rw [ht] at ht'
      injection ht' with e
      exact e ▸ hsome
    | some user =>
      rw [hm] at ht'
      dsimp only at ht'
      by_cases ha : user.is_active = true
      · rw [if_pos ha] at ht'
        dsimp only at ht'
        have hlen : i < db.tokens.length := (List.getElem?_eq_some.mp ht).1
        rw [List.getElem?_append_left (by simpa using hlen)] at ht'
        rw [List.getElem?_map, ht] at ht'
        simp only [Option.map_some'] at ht'
        injection ht' with e
        by_cases hc : t.user_id = user.id ∧ t.token_type = TokenType.PASSWORD_RESET ∧
            t.used_at = none
        · rw [if_pos hc] at e
          rw [← e]
          rfl
        · rw [if_neg hc] at e
          rw [← e]
          exact hsome
      · rw [if_neg ha] at ht'
        dsimp only at ht'
        rw [ht] at ht'
        injection ht' with e
        exact e ▸ hsome
  · intro db uid nt now i eo t t' ht ht' hsome
    unfold AuthService.send_verification_email at ht'
    cases hm : AuthService.get_user_by_id db uid with
    | none =>
      rw [hm] at ht'
      dsimp only at ht'
      rw [ht] at ht'
      injection ht' with e
      exact e ▸ hsome
    | some user =>
      rw [hm] at ht'
      dsimp only at ht'
      by_cases hv : user.is_verified = true
      · rw [if_pos hv] at ht'
        dsimp only at ht'
        rw [ht] at ht'
        injection ht' with e
        exact e ▸ hsome
      · rw [if_neg hv] at ht'
        dsimp only at ht'
        have hlen : i < db.tokens.length := (List.getElem?_eq_some.mp ht).1
        rw [List.getElem?_append_left hlen, ht] at ht'
        injection ht' with e
        exact e ▸ hsome
  · intro db uid cur new
    unfold AuthService.change_password
    cases AuthService.get_user_by_id db uid with
    | none => rfl
    | some user =>
      dsimp only
      cases verify_password cur user.hashed_password with
      | error e => rfl
      | ok b => cases b <;> rfl

/-- Closed instance of C1: redeeming the fixture reset token a second time
fails and leaves the state unchanged. -/
theorem C1_single_use_one_way_witness :
    AuthService.reset_password dbAfterReset [7] (ofString "Another1") 5 =
      (false, dbAfterReset) :=
  C1_single_use_one_way.1 dbMain dbAfterReset [7] (ofString "Newpass1") (ofString "Another1") 0 5
    rfl

/-- C2: issuing a new PASSWORD_RESET token for an existing active user
first marks every previously outstanding unused PASSWORD_RESET token of
that user as used (so each such prior token — even an unexpired one —
subsequently fails the validity check), and afterwards the only token of
that user and kind that can pass the validity check, at any instant, is
the newly created one. -/
theorem C2_reset_token_pruning (db : DB) (email new_token : Str) (now m : Nat)
    (email_ok : Bool) (u : User)
    (h1 : AuthService.get_user_by_email db email = some u)
    (h2 : u.is_active = true) :
    (∀ (i : Nat) (t : UserToken), db.tokens[i]? = some t → t.user_id = u.id →
        t.token_type = TokenType.PASSWORD_RESET → t.used_at = none →
        ((AuthService.send_password_reset_email db email new_token now email_ok).2.tokens)[i]? =
            some (t.mark_as_used now) ∧
          (t.mark_as_used now).is_valid m = false) ∧
    (∀ (t' : UserToken),
        t' ∈ (AuthService.send_password_reset_email db email new_token now email_ok).2.tokens →
        t'.user_id = u.id → t'.token_type = TokenType.PASSWORD_RESET →
        t'.is_valid m = true →
        t' = UserToken.create_reset_token u.id new_token now) := by
  have hdb : (AuthService.send_password_reset_email db email new_token now email_ok).2.tokens =
      db.tokens.map (fun t =>
        if t.user_id = u.id ∧ t.token_type = TokenType.PASSWORD_RESET ∧ t.used_at = none
        then t.mark_as_used now else t) ++ [UserToken.create_reset_token u.id new_token now] := by
    unfold AuthService.send_password_reset_email
    rw [h1]
    dsimp only
    rw [if_pos h2]
  constructor
  · intro i t ht hu hk hn
    have hlen : i < db.tokens.length := (List.getElem?_eq_some.mp ht).1
    rw [hdb]
    rw [List.getElem?_append_left (by simpa using hlen)]
    rw [List.getElem?_map, ht]
    simp only [Option.map_some']
    refine ⟨?_, ?_⟩
    · rw [if_pos ⟨hu, hk, hn⟩]
    · simp [UserToken.mark_as_used, UserToken.is_valid]
  · intro t' hmem hu hk hv
    rw [hdb] at hmem
    rcases List.mem_append.mp hmem with hmap | hnew
    · exfalso
      rcases List.mem_map.mp hmap with ⟨t, htl, heq⟩
      by_cases hc : t.user_id = u.id ∧ t.token_type = TokenType.PASSWORD_RESET ∧
          t.used_at = none
      · rw [if_pos hc] at heq
        rw [← heq] at hv
        simp [UserToken.mark_as_used, UserToken.is_valid] at hv
      · rw [if_neg hc] at heq
        subst heq
        simp only [UserToken.is_valid, Bool.and_eq_true, Option.isNone_iff_eq_none,
          decide_eq_true_eq] at hv
        exact hc ⟨hu, hk, hv.1⟩
    · rw [List.mem_singleton.mp hnew]

/-- Closed instance of C2: requesting a reset for the fixture user marks
the previously outstanding live reset token as used. -/
theorem C2_reset_token_pruning_witness :
    ((AuthService.send_password_reset_email dbMain [97] [9] 50 true).2.tokens)[0]? =
      some (resetTok.mark_as_used 50) :=
  ((C2_reset_token_pruning dbMain [97] [9] 50 0 true userA rfl rfl).1 0 resetTok
    rfl rfl rfl rfl).1
